import Mathlib

/-!
Verification of the KAssert expression-decomposition and assertion-evaluation
core (include/kassert/internal/expression_decomposition.hpp,
include/kassert/internal/assertion_macros.hpp, include/kassert/internal/logger.hpp).

The C++ code is embedded shallowly:

* `Val` models the operand values that appear in assertion expressions
  (integers, booleans, strings, an ostream-unstreamable type, `std::vector`,
  `std::pair`).
* `loggerOut` models what `Logger::operator<<` (and the `std::vector` /
  `std::pair` overloads from logger.hpp) writes for a value; `none` models
  a program that is ill-formed (no viable `operator<<` overload for some
  subterm, a compile-time error in C++).
* `stringify_value` models `kassert::internal::stringify_value`.
* `DExpr` models the `UnaryExpression` / `BinaryExpression` objects built by
  the decomposition machinery; `decomposeChain` models the operator-overload
  folding of `Decomposer{} <= a0 op1 a1 op2 a2 ...`.
* `macroEval` / `KASSERT_IMPL` model the expansion of the `KASSERT` macro,
  including `&&` / `||` handling (where decomposition degrades to a plain
  boolean via the `operator bool` conversions, preserving short-circuiting).
* `build_what` and the `THROWING_KASSERT` models mirror the throwing path of
  assertion_macros.hpp.

Evaluation is modelled with an explicit trace of side-effecting calls so that
claims about "the expression is never evaluated" are statable.
-/

namespace KAssert

/-- A single quote character, used in failure-report strings
(`In function '...'`). -/
def sq : String := String.singleton (Char.ofNat 39)

/-- Operand values of assertion expressions. `intv`, `boolv` and `strv` are
ostream-streamable scalar types; `raw` is a type with no `operator<<` for
`std::ostream` and no dedicated `Logger` overload; `vec` and `pairv` are
`std::vector` and `std::pair`, which have dedicated `Logger` overloads in
logger.hpp but no `std::ostream` overload. -/
inductive Val where
  | intv (n : Int)
  | boolv (b : Bool)
  | strv (s : String)
  | raw
  | vec (l : List Val)
  | pairv (a b : Val)

/-- `is_streamable_type<std::ostream, T>` from logger.hpp: whether
`std::ostream& << T` is well-formed. `std::ostream` streams integers, bools
and strings, but has no overload for `std::vector`, `std::pair`, or the
unstreamable type. -/
def is_streamable_ostream : Val → Bool
  | .intv _ => true
  | .boolv _ => true
  | .strv _ => true
  | .raw => false
  | .vec _ => false
  | .pairv _ _ => false

/-- `is_streamable_type<Logger<StreamT>, T>`: whether `logger << value` has a
viable overload. The member `Logger::operator<<` is SFINAE-constrained on
`is_streamable_type<std::ostream, T>`; the free `std::vector` and `std::pair`
overload templates in logger.hpp match any element types at declaration
level (overload resolution never looks into their bodies). -/
def is_streamable_logger (v : Val) : Bool :=
  is_streamable_ostream v ||
    (match v with
     | .vec _ => true
     | .pairv _ _ => true
     | _ => false)

mutual
/-- The text `logger << v` writes. The `Logger` constructor sets
`std::boolalpha` on its buffer, so bools print as `true` / `false`.
The `std::vector` overload prints `[e1, e2, ...]` (streaming each element
with `logger << element`); the `std::pair` overload prints `(first, second)`.
`none` models a compile-time error: some subterm has no viable `operator<<`
(the overload bodies stream elements directly, without the `<?>` fallback
of `stringify_value`). -/
def loggerOut : Val → Option String
  | .intv n => some (toString n)
  | .boolv b => some (if b then "true" else "false")
  | .strv s => some s
  | .raw => none
  | .vec l => (loggerOutList l).map (fun parts => "[" ++ String.intercalate ", " parts ++ "]")
  | .pairv a b => do
      let sa ← loggerOut a
      let sb ← loggerOut b
      pure ("(" ++ sa ++ ", " ++ sb ++ ")")

/-- Elementwise `logger << element` over the elements of a `std::vector`
(the loop body of the vector overload in logger.hpp). -/
def loggerOutList : List Val → Option (List String)
  | [] => some []
  | x :: xs => do
      let s ← loggerOut x
      let rest ← loggerOutList xs
      pure (s :: rest)
end

/-- `kassert::internal::stringify_value` (logger.hpp): if
`is_streamable_type<Logger<StreamT>, ValueT>` holds, stream the value,
otherwise print `<?>`. -/
def stringify_value (v : Val) : Option String :=
  if is_streamable_logger v then loggerOut v else some "<?>"

/-- Contextual conversion of a value to `bool` in C++ (`static_cast<bool>`):
defined for integers (nonzero test) and bools; `none` models a type that is
not convertible to `bool` (a compile-time error where a conversion is
required). -/
def truthy : Val → Option Bool
  | .intv n => some (n != 0)
  | .boolv b => some b
  | .strv _ => none
  | .raw => none
  | .vec _ => none
  | .pairv _ _ => none

/-- Integral value of a scalar operand under the usual arithmetic
conversions (`bool` promotes to 0 / 1); `none` for non-arithmetic operands
(the model covers integral operands only). -/
def asInt : Val → Option Int
  | .intv n => some n
  | .boolv b => some (if b then 1 else 0)
  | _ => none

/-- The binary operators intercepted by the decomposition machinery
(expression_decomposition.hpp): `==`, `!=`, `<`, `<=`, `>`, `>=`, `&`, `|`,
`^`. -/
inductive Op where
  | opEq | opNe | opLt | opLe | opGt | opGe | opAnd | opOr | opXor
deriving DecidableEq

/-- The stringified operator (`#op` in the `KASSERT_ASSERT_OP` macro). -/
def opStr : Op → String
  | .opEq => "=="
  | .opNe => "!="
  | .opLt => "<"
  | .opLe => "<="
  | .opGt => ">"
  | .opGe => ">="
  | .opAnd => "&"
  | .opOr => "|"
  | .opXor => "^"

/-- Native C++ evaluation of `a op b` on integral operands: relational and
equality operators yield `bool`, bitwise operators yield an integer
(two's-complement bitwise operation). `none` for non-integral operands. -/
def evalOpNative (op : Op) (a b : Val) : Option Val := do
  let x ← asInt a
  let y ← asInt b
  match op with
  | .opEq => pure (.boolv (x == y))
  | .opNe => pure (.boolv (x != y))
  | .opLt => pure (.boolv (decide (x < y)))
  | .opLe => pure (.boolv (decide (x ≤ y)))
  | .opGt => pure (.boolv (decide (x > y)))
  | .opGe => pure (.boolv (decide (x ≥ y)))
  | .opAnd => pure (.intv (Int.land x y))
  | .opOr => pure (.intv (Int.lor x y))
  | .opXor => pure (.intv (Int.xor x y))

/-- `a op b` converted to `bool`, as consumed by the `BinaryExpression`
constructor (its `result` parameter has type `bool`). -/
def evalOpBool (op : Op) (a b : Val) : Option Bool :=
  (evalOpNative op a b).bind truthy

/-- The decomposed expression objects of expression_decomposition.hpp.
`unary v` is `UnaryExpression<LhsT>` (holding one operand); `bin0` is
`BinaryExpression<LhsT, RhsT>` with two plain operand values (built by the
`LhsExpression` operator overloads); `binN` is
`BinaryExpression<BinaryExpression<...>, RhsT>` whose left side is itself a
decomposed binary expression (built by the `BinaryExpression` operator
overloads). Each binary node stores its precomputed boolean result. -/
inductive DExpr where
  | unary (v : Val)
  | bin0 (res : Bool) (lhs : Val) (op : Op) (rhs : Val)
  | binN (res : Bool) (lhs : DExpr) (op : Op) (rhs : Val)

/-- `Expression::result()`: `BinaryExpression` returns the stored boolean;
`UnaryExpression` returns `static_cast<bool>(_lhs)` (`none` models an
operand type that is not convertible to `bool` — `make_unary` statically
rejects such operands, so the `none` case is unreachable for expressions
the builder produces). -/
def DExpr.result : DExpr → Option Bool
  | .unary v => truthy v
  | .bin0 r _ _ _ => some r
  | .binN r _ _ _ => some r

/-- `Expression::stringify`: `UnaryExpression` stringifies its operand via
`stringify_value`; `BinaryExpression` stringifies the left operand, writes
a space, the operator text and a space, then the right operand. A nested
`BinaryExpression` left side flows through `stringify_value` into the
`operator<<(OStreamLogger&, Expression const&)` friend, hence recursion. -/
def DExpr.stringify : DExpr → Option String
  | .unary v => stringify_value v
  | .bin0 _ l op r => do
      let ls ← stringify_value l
      let rs ← stringify_value r
      pure (ls ++ " " ++ opStr op ++ " " ++ rs)
  | .binN _ l op r => do
      let ls ← l.stringify
      let rs ← stringify_value r
      pure (ls ++ " " ++ opStr op ++ " " ++ rs)

/-- The intermediate state of decomposition: `lhsE v` is
`LhsExpression<LhsT>` (the result of `Decomposer{} <= v`); `binE e` is a
`BinaryExpression` produced by one or more operator folds. -/
inductive DecompRes where
  | lhsE (v : Val)
  | binE (e : DExpr)

/-- The operators for which `BinaryExpression` declares a friend overload
(the `KASSERT_ASSERT_OP` instantiations at expression_decomposition.hpp
lines 134-138): only `&`, `|`, `^`, `==`, `!=` can extend an existing
binary node into a deeper chain. -/
def chainOps : List Op := [.opAnd, .opOr, .opXor, .opEq, .opNe]

/-- One operator fold. From `LhsExpression`, all nine overloads exist and
produce `BinaryExpression(lhs._lhs op rhs, lhs._lhs, #op, rhs)`. From
`BinaryExpression`, only the five `chainOps` overloads exist (any other
operator is a compile-time error, modelled `none`); they produce
`BinaryExpression(lhs.result() op rhs_prime, lhs, #op, rhs_prime)` — note
the new result is computed from the previous node's boolean `result()`,
promoted to an integer. -/
def foldStep : DecompRes → Op → Val → Option DecompRes
  | .lhsE v, op, w => (evalOpBool op v w).map (fun r => .binE (.bin0 r v op w))
  | .binE e, op, w =>
      if op ∈ chainOps then do
        let r ← e.result
        let r2 ← evalOpBool op (.boolv r) w
        pure (.binE (.binN r2 e op w))
      else none

/-- An operand of a decomposable chain: a value, optionally produced by a
named side-effecting call (the name is recorded in the evaluation trace). -/
structure Atom where
  callName : Option String
  v : Val

/-- The trace contribution of evaluating one operand. -/
def atomTrace (a : Atom) : List String := a.callName.toList

/-- A decomposable expression: a first operand followed by a left-associative
sequence of intercepted binary operators, exactly the shape
`a0 op1 a1 op2 a2 ...` that `Decomposer{} <= a0 op1 a1 op2 a2 ...` folds. -/
structure Chain where
  first : Atom
  rest : List (Op × Atom)

/-- Folds the trailing operators of a chain onto an intermediate
decomposition state, one `foldStep` per operator. -/
def foldChainSteps : DecompRes → List (Op × Atom) → Option DecompRes
  | acc, [] => some acc
  | acc, (op, a) :: rest => do
      let acc2 ← foldStep acc op a.v
      foldChainSteps acc2 rest

/-- The side-effect trace of evaluating every operand of a chain, in source
order (operand evaluation order within one full expression is unspecified
in C++; the claims proved below only involve chains where at most one
operand has a side effect, so the order fixed here is immaterial). -/
def chainTrace (c : Chain) : List String :=
  atomTrace c.first ++ (c.rest.map (fun p => atomTrace p.2)).flatten

/-- `Decomposer{} <= a0 op1 a1 ...`: wrap the first operand in
`LhsExpression` and fold every following intercepted operator. -/
def decomposeChain (c : Chain) : Option (DecompRes × List String) :=
  (foldChainSteps (.lhsE c.first.v) c.rest).map (fun r => (r, chainTrace c))

/-- The `operator bool` conversions used when `&&` or `||` follows the
decomposed prefix: `LhsExpression::operator bool` returns `_lhs` implicitly
converted, `BinaryExpression::operator bool` returns `_result`. -/
def DecompRes.toBool : DecompRes → Option Bool
  | .lhsE v => truthy v
  | .binE e => e.result

/-- `finalize_expr` (expression_decomposition.hpp lines 258-265): an
`LhsExpression` is turned into a `UnaryExpression` via `make_unary`, whose
`static_assert` requires the operand to be convertible to `bool`; an
`Expression` is passed through unchanged. -/
def finalize_expr : DecompRes → Option DExpr
  | .lhsE v => if (truthy v).isSome then some (.unary v) else none
  | .binE e => some e

/-- The assertion expression as written at the `KASSERT` call site, after
parsing: `&&` and `||` bind looser than every intercepted operator, so the
expression is a `&&` / `||` tree whose leaves are decomposable chains. The
`Decomposer` attaches to the leftmost chain only (see the group comment at
the top of expression_decomposition.hpp). -/
inductive LogicSrc where
  | chain (c : Chain)
  | land (l r : LogicSrc)
  | lor (l r : LogicSrc)

/-- Native (undecomposed) left-associative evaluation of a chain, as C++
evaluates it where no `Decomposer` is attached: each operator acts on the
accumulated value (`bool` results promote back to integers for subsequent
operators). Returns the final value. -/
def nativeChainVal : Val → List (Op × Atom) → Option Val
  | v, [] => some v
  | v, (op, a) :: rest => do
      let v2 ← evalOpNative op v a.v
      nativeChainVal v2 rest

/-- Native C++ evaluation of a full assertion expression as a `bool`
(the contextual conversion applied by `&&`, `||`, `if`): short-circuiting
`&&` / `||`, chains evaluated natively. Also yields the trace of
side-effecting calls actually executed. -/
def nativeEvalBool : LogicSrc → Option (Bool × List String)
  | .chain c => do
      let v ← nativeChainVal c.first.v c.rest
      let b ← truthy v
      pure (b, chainTrace c)
  | .land l r => do
      let (bl, tl) ← nativeEvalBool l
      if bl then do
        let (br, tr) ← nativeEvalBool r
        pure (br, tl ++ tr)
      else pure (false, tl)
  | .lor l r => do
      let (bl, tl) ← nativeEvalBool l
      if bl then pure (true, tl)
      else do
        let (br, tr) ← nativeEvalBool r
        pure (br, tl ++ tr)

/-- The boolean value of `Decomposer{} <= e` when that value is needed in a
short-circuit context: the leftmost chain is decomposed and converted via
`operator bool`; everything to the right of a `&&` / `||` evaluates
natively, with the built-in short-circuit semantics. -/
def macroEvalB : LogicSrc → Option (Bool × List String)
  | .chain c => do
      let (r, t) ← decomposeChain c
      let b ← r.toBool
      pure (b, t)
  | .land l r => do
      let (bl, tl) ← macroEvalB l
      if bl then do
        let (br, tr) ← nativeEvalBool r
        pure (br, tl ++ tr)
      else pure (false, tl)
  | .lor l r => do
      let (bl, tl) ← macroEvalB l
      if bl then pure (true, tl)
      else do
        let (br, tr) ← nativeEvalBool r
        pure (br, tl ++ tr)

/-- The value of the full macro argument `Decomposer{} <= e` before
`finalize_expr`: a decomposition object if the whole expression is one
chain, or a plain `bool` if a top-level `&&` / `||` degraded it. -/
def macroEval : LogicSrc → Option ((DecompRes ⊕ Bool) × List String)
  | .chain c => (decomposeChain c).map (fun rt => (Sum.inl rt.1, rt.2))
  | .land l r => do
      let (bl, tl) ← macroEvalB l
      if bl then do
        let (br, tr) ← nativeEvalBool r
        pure (Sum.inr br, tl ++ tr)
      else pure (Sum.inr false, tl)
  | .lor l r => do
      let (bl, tl) ← macroEvalB l
      if bl then pure (Sum.inr true, tl)
      else do
        let (br, tr) ← nativeEvalBool r
        pure (Sum.inr br, tl ++ tr)

/-- `kassert::internal::SourceLocation` (kassert.hpp): file, line, enclosing
function. -/
structure SourceLocation where
  file : String
  row : Nat
  function : String

/-- Predefined assertion level `kassert::assert::kthrow`
(`KASSERT_ASSERTION_LEVEL_KTHROW`). -/
def kthrow : Int := 10

/-- Predefined assertion level `kassert::assert::normal`
(`KASSERT_ASSERTION_LEVEL_NORMAL`), the default level of `KASSERT`. -/
def normal : Int := 30

/-- The fallback value of the `KASSERT_ASSERTION_LEVEL` macro when the host
build does not define it (kassert.hpp lines 315-319): the build emits a
warning and sets the level to `KASSERT_ASSERTION_LEVEL_NORMAL`. -/
def KASSERT_ASSERTION_LEVEL_default : Int := normal

/-- `kassert::internal::assertion_enabled`: an assertion of level `level` is
enabled iff `level <= KASSERT_ASSERTION_LEVEL`. The configured active level
is passed here as the explicit first argument `active`. -/
def assertion_enabled (active level : Int) : Bool :=
  level ≤ active

/-- The report written by both overloads of `evaluate_and_print_assertion`
before any expansion: location header, `FAILED <type>` line, tab-indented
raw expression text. -/
def failureHeader (type : String) (where_ : SourceLocation) (expr_str : String) : String :=
  where_.file ++ ": In function " ++ sq ++ where_.function ++ sq ++ ":\n"
    ++ where_.file ++ ":" ++ toString where_.row ++ ": FAILED " ++ type ++ "\n"
    ++ "\t" ++ expr_str ++ "\n"

/-- The `bool` overload of `kassert::internal::evaluate_and_print_assertion`
(kassert.hpp lines 450-458), used when the expression could not be
decomposed: on failure it writes the header report (no expansion section)
and returns the result. The second component is the text written to the
logger. -/
def evaluate_and_print_assertion_bool
    (type : String) (result : Bool) (where_ : SourceLocation) (expr_str : String) :
    Bool × String :=
  (result, if result then "" else failureHeader type where_ expr_str)

/-- The `Expression&&` overload of
`kassert::internal::evaluate_and_print_assertion` (kassert.hpp lines
467-477): on failure it writes the header report plus a
`with expansion:` section containing the stringified expression. -/
def evaluate_and_print_assertion_expr
    (type : String) (expr : DExpr) (where_ : SourceLocation) (expr_str : String) :
    Option (Bool × String) := do
  let r ← expr.result
  if r then pure (true, "")
  else do
    let ex ← expr.stringify
    pure (false, failureHeader type where_ expr_str ++ "with expansion:\n" ++ "\t" ++ ex ++ "\n")

/-- The observable outcome of one `KASSERT` statement: whether `std::abort`
was reached, and the full text written to the error logger. -/
structure Outcome where
  aborted : Bool
  output : String
deriving DecidableEq

/-- `KASSERT_KASSERT_HPP_KASSERT_IMPL` (assertion_macros.hpp lines 57-73):
if the level is enabled (`if constexpr`), decompose and evaluate the
expression, print the failure report on failure, then stream the user
message and abort. If the level is disabled the statement is a no-op: the
expression is not evaluated (but must still compile, which `macroEval`
succeeding models). Returns the outcome and the trace of side-effecting
calls executed. -/
def KASSERT_IMPL (active : Int) (type : String) (e : LogicSrc) (message : String)
    (level : Int) (where_ : SourceLocation) (expr_str : String) :
    Option (Outcome × List String) :=
  if assertion_enabled active level then do
    let (res, tr) ← macroEval e
    let (r, out) ←
      match res with
      | Sum.inl d => do
          let d2 ← finalize_expr d
          evaluate_and_print_assertion_expr type d2 where_ expr_str
      | Sum.inr b => pure (evaluate_and_print_assertion_bool type b where_ expr_str)
    if r then pure (⟨false, out⟩, tr)
    else pure (⟨true, out ++ message ++ "\n"⟩, tr)
  else
    (macroEval e).map (fun _ => (⟨false, ""⟩, []))

/-- `KASSERT(expression, message)` with the default level
(`KASSERT_2` delegates to `KASSERT_3` with `kassert::assert::normal`,
and `KASSERT_3` passes the type string `"ASSERTION"`). -/
def KASSERT2 (active : Int) (e : LogicSrc) (message : String)
    (where_ : SourceLocation) (expr_str : String) : Option (Outcome × List String) :=
  KASSERT_IMPL active "ASSERTION" e message normal where_ expr_str

/-- `kassert::internal::build_what` (kassert.hpp lines 398-403): the
description of a thrown `KassertException`, assembled from the stringified
expression, the source location and the user message. Note the literal
`FAILED ASSERTION` and the `": "` (colon, space) between file and line. -/
def build_what (expression : String) (where_ : SourceLocation) (message : String) : String :=
  "\n" ++ where_.file ++ ": In function " ++ sq ++ where_.function ++ sq ++ ":\n"
    ++ where_.file ++ ": " ++ toString where_.row ++ ": FAILED ASSERTION" ++ "\n"
    ++ "\t" ++ expression ++ "\n" ++ message ++ "\n"

/-- `KASSERT_KASSERT_HPP_THROWING_KASSERT_IMPL_INTERNAL` with
`KASSERT_EXCEPTION_MODE` defined (assertion_macros.hpp lines 94-99): the
expression is evaluated natively (no decomposition, no level gate of any
kind) and, if false, an exception carrying `what` is thrown. The first
component of the result is `some what` if the exception was thrown. -/
def THROWING_KASSERT_exception_mode (e : LogicSrc) (what : String) :
    Option (Option String × List String) :=
  (nativeEvalBool e).map (fun bt => (if bt.1 then none else some what, bt.2))

/-- `KASSERT_KASSERT_HPP_THROWING_KASSERT_IMPL_INTERNAL` without
`KASSERT_EXCEPTION_MODE` (assertion_macros.hpp lines 101-110): gated by
`if constexpr (assertion_enabled(kassert::assert::kthrow))`; when enabled
and the expression is false, the exception's `what()` text is logged
followed by a newline and the process aborts. When the gate is closed the
expression is not evaluated. -/
def THROWING_KASSERT_no_exception_mode (active : Int) (e : LogicSrc) (what : String) :
    Option (Outcome × List String) :=
  if assertion_enabled active kthrow then
    (nativeEvalBool e).map
      (fun bt => (if bt.1 then ⟨false, ""⟩ else ⟨true, what ++ "\n"⟩, bt.2))
  else
    (nativeEvalBool e).map (fun _ => (⟨false, ""⟩, []))

/-- The six relational / equality operators of the claim about rendering
(`==`, `!=`, `<`, `<=`, `>`, `>=`). -/
def relSixOps : List Op := [.opEq, .opNe, .opLt, .opLe, .opGt, .opGe]

/-- The four strict relational operators, which `BinaryExpression` does not
overload: they can only occur as the first fold, on `LhsExpression`. -/
def relFourOps : List Op := [.opLt, .opLe, .opGt, .opGe]

/-- The structural invariant of decomposed binary chains: every extension of
an existing binary node (a `binN` constructor) uses one of the five
`chainOps`; the innermost `bin0` node may use any intercepted operator. -/
def GoodD : DExpr → Prop
  | .unary _ => True
  | .bin0 _ _ _ _ => True
  | .binN _ e op _ => op ∈ chainOps ∧ GoodD e

/-- The invariant lifted to intermediate decomposition states. -/
def GoodRes : DecompRes → Prop
  | .lhsE _ => True
  | .binE e => GoodD e

/-- A concrete source location used in the concrete check instances. -/
def testLoc : SourceLocation := ⟨"test.cpp", 1, "int main()"⟩

/-- `sub` occurs as a contiguous substring of `s`. -/
def containsStr (s sub : String) : Prop :=
  ∃ pre post : List Char, s.data = pre ++ sub.data ++ post

/-- Boolean test: does `sub` occur as a prefix of `l`? -/
def prefAt : List Char → List Char → Bool
  | [], _ => true
  | _ :: _, [] => false
  | a :: as, b :: bs => a == b && prefAt as bs

/-- Boolean test: does `sub` occur as a contiguous sublist of `l`? -/
def subAt : List Char → List Char → Bool
  | sub, [] => prefAt sub []
  | sub, l@(_ :: t) => prefAt sub l || subAt sub t

theorem prefAt_append (sub post : List Char) : prefAt sub (sub ++ post) = true := by
  induction sub with
  | nil => rfl
  | cons a as ih => simp [prefAt, ih]

theorem subAt_append (sub pre post : List Char) : subAt sub (pre ++ sub ++ post) = true := by
  induction pre with
  | nil =>
      cases sub with
      | nil => cases post <;> simp [subAt, prefAt]
      | cons s ss =>
          simp only [List.nil_append, List.cons_append, subAt]
          have hp := prefAt_append (s :: ss) post
          simp only [List.cons_append] at hp
          simp [hp]
  | cons a pre2 ih =>
      simp only [List.cons_append, List.append_assoc] at ih ⊢
      simp [subAt, ih]

/-- If the boolean sublist test fails, `sub` does not occur in `s`. -/
theorem not_containsStr_of_subAt_false (s sub : String) (h : subAt sub.data s.data = false) :
    ¬ containsStr s sub := by
  rintro ⟨pre, post, hd⟩
  have ht := subAt_append sub.data pre post
  rw [← hd, h] at ht
  exact absurd ht (by simp)

/-- A substring occurrence exhibited by an explicit decomposition. -/
theorem containsStr_intro (s sub : String) (pre post : String)
    (h : s = pre ++ sub ++ post) : containsStr s sub := by
  refine ⟨pre.data, post.data, ?_⟩
  subst h
  simp

theorem loggerOutList_none_of_mem_raw :
    ∀ l : List Val, Val.raw ∈ l → loggerOutList l = none := by
  intro l hl
  induction l with
  | nil => cases hl
  | cons x xs ih =>
      rcases List.mem_cons.mp hl with h | h
      · subst h
        simp [loggerOutList, loggerOut]
      · have hx := ih h
        cases hv : loggerOut x <;> simp [loggerOutList, hv, hx]

theorem foldStep_good (acc : DecompRes) (op : Op) (w : Val) (res : DecompRes)
    (hg : GoodRes acc) (h : foldStep acc op w = some res) : GoodRes res := by
  cases acc with
  | lhsE v =>
      cases hv : evalOpBool op v w with
      | none => simp [foldStep, hv] at h
      | some r =>
          simp [foldStep, hv] at h
          subst h
          trivial
  | binE e =>
      by_cases hop : op ∈ chainOps
      · cases hr : e.result with
        | none => simp [foldStep, hop, hr] at h
        | some r =>
            cases hv : evalOpBool op (.boolv r) w with
            | none => simp [foldStep, hop, hr, hv] at h
            | some r2 =>
                simp [foldStep, hop, hr, hv] at h
                subst h
                exact ⟨hop, hg⟩
      · simp [foldStep, hop] at h

theorem foldChainSteps_good :
    ∀ (l : List (Op × Atom)) (acc res : DecompRes),
      GoodRes acc → foldChainSteps acc l = some res → GoodRes res := by
  intro l
  induction l with
  | nil =>
      intro acc res hg h
      simp [foldChainSteps] at h
      subst h
      exact hg
  | cons p rest ih =>
      intro acc res hg h
      rcases p with ⟨op, a⟩
      cases hs : foldStep acc op a.v with
      | none => simp [foldChainSteps, hs] at h
      | some acc2 =>
          simp [foldChainSteps, hs] at h
          exact ih acc2 res (foldStep_good acc op a.v acc2 hg hs) h

/-- C8: sequence and pair rendering follows fixed formats applied
transitively: `[1,2,3]` renders as `[1, 2, 3]`, an empty sequence renders
as `[]`, the pair `(1,2)` renders as `(1, 2)`, and a sequence of pairs
`[(1,2),(1,3)]` renders as `[(1, 2), (1, 3)]`. -/
theorem C8_sequence_pair_rendering :
    stringify_value (.vec [.intv 1, .intv 2, .intv 3]) = some "[1, 2, 3]" ∧
    stringify_value (.vec []) = some "[]" ∧
    stringify_value (.pairv (.intv 1) (.intv 2)) = some "(1, 2)" ∧
    stringify_value (.vec [.pairv (.intv 1) (.intv 2), .pairv (.intv 1) (.intv 3)]) =
      some "[(1, 2), (1, 3)]" :=
  ⟨rfl, rfl, rfl, rfl⟩

/-- C10: the logger enables `std::boolalpha` at construction, so boolean
operands render as the words `true` / `false` (never `1` / `0`), both when
streamed directly and inside a decomposed-expression expansion. -/
theorem C10_boolalpha_rendering :
    (∀ b : Bool, loggerOut (.boolv b) = some (if b then "true" else "false")) ∧
    (∀ b : Bool, stringify_value (.boolv b) = some (if b then "true" else "false")) ∧
    (∀ b : Bool, loggerOut (.boolv b) ≠ some "1" ∧ loggerOut (.boolv b) ≠ some "0") ∧
    (∀ r b c : Bool,
      DExpr.stringify (.bin0 r (.boolv b) .opEq (.boolv c)) =
        some ((if b then "true" else "false") ++ " == " ++ (if c then "true" else "false"))) := by
  refine ⟨fun b => rfl, fun b => by cases b <;> rfl, fun b => by cases b <;> exact ⟨by decide, by decide⟩,
    fun r b c => by cases b <;> cases c <;> rfl⟩

/-- C10 witness: the boolalpha theorem applied at the concrete boolean
`true`. -/
theorem C10_witness :
    loggerOut (.boolv true) = some (if true then "true" else "false") :=
  C10_boolalpha_rendering.1 true

/-- C7 counterexample: rendering a sequence whose element type has no
renderer is NOT the placeholder-per-element `[<?>]` — the `std::vector`
overload streams each element directly (`logger << element`), so the
rendering is ill-formed (modelled `none`): the code rejects it at compile
time instead of degrading to `<?>`. -/
theorem C7_cex_vector_of_unrenderable :
    stringify_value (.vec [.raw]) = none :=
  rfl

/-- C7 (amended): a value with no viable logger `operator<<` overload at the
point where `stringify_value` dispatches renders as `<?>` and never fails;
but sequences always match the sequence overload, which streams its
elements directly, so a sequence containing a renderer-less element is
statically rejected (modelled `none`) rather than rendered as `<?>`
elements. -/
theorem C7_placeholder_only_at_dispatch :
    (∀ v : Val, is_streamable_logger v = false → stringify_value v = some "<?>") ∧
    (∀ l : List Val, Val.raw ∈ l → stringify_value (.vec l) = none) := by
  constructor
  · intro v h
    simp [stringify_value, h]
  · intro l hl
    simp [stringify_value, is_streamable_logger, loggerOut, loggerOutList_none_of_mem_raw l hl]

/-- C7 witness: the amended theorem applied at the unrenderable atom and at
the one-element sequence containing it. -/
theorem C7_witness :
    stringify_value .raw = some "<?>" ∧ stringify_value (.vec [.raw]) = none :=
  ⟨C7_placeholder_only_at_dispatch.1 .raw rfl,
   C7_placeholder_only_at_dispatch.2 [.raw] (by simp)⟩

/-- C5 counterexample: the claim says the active level defaults to 0,
disabling all assertions, when the host build does not set it. The header
fallback (`#ifndef KASSERT_ASSERTION_LEVEL` in kassert.hpp) instead sets
the level to `KASSERT_ASSERTION_LEVEL_NORMAL` = 30, so a default-level
check is enabled by default. -/
theorem C5_cex_default_level :
    KASSERT_ASSERTION_LEVEL_default = 30 ∧
    assertion_enabled KASSERT_ASSERTION_LEVEL_default normal = true :=
  ⟨rfl, rfl⟩

/-- C5 (amended): a check runs exactly when `level <= active_level`; a check
whose level is strictly greater than the active level is a no-op — its
expression is never evaluated (no side-effecting call executes) and it
never aborts or writes output, even if the expression is false. (The header
default of the active level, when the host build sets none, is 30, not 0.) -/
theorem C5_gating_noop :
    (∀ active level : Int, assertion_enabled active level = true ↔ level ≤ active) ∧
    (∀ (active level : Int) (type : String) (e : LogicSrc) (msg : String)
        (loc : SourceLocation) (es : String) (out : Outcome) (tr : List String),
      assertion_enabled active level = false →
      KASSERT_IMPL active type e msg level loc es = some (out, tr) →
      out.aborted = false ∧ out.output = "" ∧ tr = []) := by
  constructor
  · intro active level
    simp [assertion_enabled]
  · intro active level type e msg loc es out tr hdis h
    rw [KASSERT_IMPL, hdis] at h
    simp only [Bool.false_eq_true, if_false, reduceIte] at h
    cases hm : macroEval e with
    | none => rw [hm] at h; cases h
    | some v =>
        rw [hm] at h
        simp only [Option.map_some'] at h
        cases h
        exact ⟨rfl, rfl, rfl⟩

/-- C9: every extension of an existing binary node into a deeper chain uses
one of `&`, `|`, `^`, `==`, `!=` only (every expression the builder can
produce satisfies `GoodD`); the four relational operators `<`, `<=`, `>`,
`>=` have no `BinaryExpression` overload (further chaining with them is a
compile-time error, modelled `none`) but do fold a bare initial operand
into a binary node via the `LhsExpression` overloads. -/
theorem C9_chain_operator_invariant :
    (∀ (c : Chain) (e : DExpr) (t : List String),
      decomposeChain c = some (.binE e, t) → GoodD e) ∧
    (∀ (e : DExpr) (op : Op) (w : Val), op ∈ relFourOps → foldStep (.binE e) op w = none) ∧
    (∀ (a b : Int) (op : Op), op ∈ relFourOps →
      ∃ r : Bool,
        foldStep (.lhsE (.intv a)) op (.intv b) =
          some (.binE (.bin0 r (.intv a) op (.intv b)))) := by
  refine ⟨?_, ?_, ?_⟩
  · intro c e t h
    rw [decomposeChain] at h
    cases hf : foldChainSteps (.lhsE c.first.v) c.rest with
    | none => rw [hf] at h; cases h
    | some res =>
        rw [hf] at h
        simp only [Option.map_some'] at h
        have hres : res = .binE e := congrArg Prod.fst (Option.some.inj h)
        subst hres
        exact foldChainSteps_good c.rest (.lhsE c.first.v) (.binE e) trivial hf
  · intro e op w hop
    fin_cases hop <;> rfl
  · intro a b op hop
    fin_cases hop <;> exact ⟨_, rfl⟩

/-- C9 witness: the invariant applied to the concrete decomposition of
`1 == 1`, and the relational-chaining rejection at `<`. -/
theorem C9_witness :
    GoodD (.bin0 true (.intv 1) .opEq (.intv 1)) ∧
    foldStep (.binE (.bin0 true (.intv 1) .opEq (.intv 1))) .opLt (.intv 2) = none :=
  ⟨C9_chain_operator_invariant.1 ⟨⟨none, .intv 1⟩, [(.opEq, ⟨none, .intv 1⟩)]⟩
      (.bin0 true (.intv 1) .opEq (.intv 1)) [] rfl,
   C9_chain_operator_invariant.2.1 (.bin0 true (.intv 1) .opEq (.intv 1)) .opLt (.intv 2)
      (by simp [relFourOps])⟩

/-- C2: short-circuit evaluation is preserved exactly: with a true left
operand of `||` (and a false left operand of `&&`) the right operand is
never evaluated — for every right operand the macro value degrades to a
plain boolean with an empty side-effect trace; concretely,
`KASSERT(true || sideEffect(false))` passes silently without invoking
`sideEffect`, and `KASSERT(false && sideEffect(false))` fails without
invoking `sideEffect`, its report holding only the raw expression text and
no `with expansion:` section. -/
theorem C2_short_circuit :
    (∀ r : LogicSrc,
      macroEval (.lor (.chain ⟨⟨none, .boolv true⟩, []⟩) r) = some (Sum.inr true, [])) ∧
    (∀ r : LogicSrc,
      macroEval (.land (.chain ⟨⟨none, .boolv false⟩, []⟩) r) = some (Sum.inr false, [])) ∧
    KASSERT2 30 (.lor (.chain ⟨⟨none, .boolv true⟩, []⟩)
        (.chain ⟨⟨some "sideEffect", .boolv false⟩, []⟩)) "" testLoc
        "true || sideEffect(false)" = some (⟨false, ""⟩, []) ∧
    KASSERT2 30 (.land (.chain ⟨⟨none, .boolv false⟩, []⟩)
        (.chain ⟨⟨some "sideEffect", .boolv false⟩, []⟩)) "" testLoc
        "false && sideEffect(false)" =
      some (⟨true, failureHeader "ASSERTION" testLoc "false && sideEffect(false)" ++ "\n"⟩, []) ∧
    ¬ containsStr (failureHeader "ASSERTION" testLoc "false && sideEffect(false)" ++ "\n")
        "with expansion:" := by
  refine ⟨fun r => rfl, fun r => rfl, by decide, by decide,
    not_containsStr_of_subAt_false _ _ (by decide)⟩

/-- C2 witness: the short-circuit theorem applied at a concrete
side-effecting right operand. -/
theorem C2_witness :
    macroEval (.lor (.chain ⟨⟨none, .boolv true⟩, []⟩)
      (.chain ⟨⟨some "sideEffect", .boolv false⟩, []⟩)) = some (Sum.inr true, []) :=
  C2_short_circuit.1 (.chain ⟨⟨some "sideEffect", .boolv false⟩, []⟩)

/-- C1: at an enabled assertion level, a check on a boolean-convertible
value aborts iff the value converts to false, and writes no report when it
converts to true; the throwing check in exception mode likewise throws iff
the value converts to false. -/
theorem C1_check_aborts_iff_false :
    ∀ (active level : Int) (v : Val) (b : Bool) (loc : SourceLocation) (es msg : String),
      assertion_enabled active level = true →
      truthy v = some b →
      (∃ out : Outcome,
        KASSERT_IMPL active "ASSERTION" (.chain ⟨⟨none, v⟩, []⟩) msg level loc es =
          some (out, []) ∧ out.aborted = !b ∧ (b = true → out.output = "")) ∧
      THROWING_KASSERT_exception_mode (.chain ⟨⟨none, v⟩, []⟩) msg =
        some (if b then none else some msg, []) := by
  intro active level v b loc es msg hen htr
  cases v with
  | strv s => simp [truthy] at htr
  | raw => simp [truthy] at htr
  | vec l => simp [truthy] at htr
  | pairv x y => simp [truthy] at htr
  | intv n =>
      have hb : (n != 0) = b := Option.some.inj htr
      cases b with
      | true =>
          refine ⟨⟨⟨false, ""⟩, ?_, rfl, fun _ => rfl⟩, ?_⟩
          · simp only [KASSERT_IMPL, hen, reduceIte]
            simp [macroEval, decomposeChain, foldChainSteps, chainTrace, atomTrace,
              finalize_expr, truthy, hb, evaluate_and_print_assertion_expr, DExpr.result]
          · simp [THROWING_KASSERT_exception_mode, nativeEvalBool, nativeChainVal,
              truthy, hb, chainTrace, atomTrace]
      | false =>
          refine ⟨⟨⟨true, failureHeader "ASSERTION" loc es
              ++ "with expansion:\n" ++ "\t" ++ toString n ++ "\n" ++ msg ++ "\n"⟩,
              ?_, rfl, fun hc => by cases hc⟩, ?_⟩
          · simp only [KASSERT_IMPL, hen, reduceIte]
            simp [macroEval, decomposeChain, foldChainSteps, chainTrace, atomTrace,
              finalize_expr, truthy, hb, evaluate_and_print_assertion_expr, DExpr.result,
              DExpr.stringify, stringify_value, is_streamable_logger, is_streamable_ostream,
              loggerOut]
          · simp [THROWING_KASSERT_exception_mode, nativeEvalBool, nativeChainVal,
              truthy, hb, chainTrace, atomTrace]
  | boolv c =>
      have hb : c = b := Option.some.inj htr
      subst hb
      cases c with
      | true =>
          refine ⟨⟨⟨false, ""⟩, ?_, rfl, fun _ => rfl⟩, ?_⟩
          · simp only [KASSERT_IMPL, hen, reduceIte]
            rfl
          · rfl
      | false =>
          refine ⟨⟨⟨true, failureHeader "ASSERTION" loc es
              ++ "with expansion:\n" ++ "\t" ++ "false" ++ "\n" ++ msg ++ "\n"⟩,
              ?_, rfl, fun hc => by cases hc⟩, ?_⟩
          · simp only [KASSERT_IMPL, hen, reduceIte]
            rfl
          · rfl

/-- C1 witness: the theorem applied at a concrete enabled check on the
false-converting value 0 (the check aborts, the throwing check throws). -/
theorem C1_witness :
    (∃ out : Outcome,
      KASSERT_IMPL 30 "ASSERTION" (.chain ⟨⟨none, .intv 0⟩, []⟩) "m" 30 testLoc "x" =
        some (out, []) ∧ out.aborted = !false ∧ (false = true → out.output = "")) ∧
    THROWING_KASSERT_exception_mode (.chain ⟨⟨none, .intv 0⟩, []⟩) "m" =
      some (if false then none else some "m", []) :=
  C1_check_aborts_iff_false 30 30 (.intv 0) false testLoc "x" "m" (by decide) (by decide)

/-- C3: a failing relational check on integer operands renders exactly
`<a> <op> <b>` with single spaces around the operator, for each of `==`,
`!=`, `<`, `<=`, `>`, `>=`; and `a == b == c` folds strictly
left-associatively, so with a=1, b=1, c=5 the check fails and the expansion
renders exactly `1 == 1 == 5`. -/
theorem C3_relational_rendering :
    (∀ (a b : Int) (op : Op) (loc : SourceLocation) (es : String),
      op ∈ relSixOps →
      evalOpBool op (.intv a) (.intv b) = some false →
      KASSERT2 30 (.chain ⟨⟨none, .intv a⟩, [(op, ⟨none, .intv b⟩)]⟩) "" loc es =
        some (⟨true, failureHeader "ASSERTION" loc es ++ "with expansion:\n" ++ "\t"
          ++ (toString a ++ " " ++ opStr op ++ " " ++ toString b) ++ "\n" ++ "" ++ "\n"⟩, [])) ∧
    KASSERT2 30
        (.chain ⟨⟨none, .intv 1⟩, [(.opEq, ⟨none, .intv 1⟩), (.opEq, ⟨none, .intv 5⟩)]⟩)
        "" testLoc "a == b == c" =
      some (⟨true, failureHeader "ASSERTION" testLoc "a == b == c"
        ++ "with expansion:\n" ++ "\t" ++ "1 == 1 == 5" ++ "\n" ++ "" ++ "\n"⟩, []) := by
  constructor
  · intro a b op loc es hop hv
    simp only [KASSERT2, KASSERT_IMPL, show assertion_enabled 30 normal = true from rfl,
      reduceIte]
    simp [macroEval, decomposeChain, foldChainSteps, foldStep, hv, chainTrace, atomTrace,
      finalize_expr, evaluate_and_print_assertion_expr, DExpr.result, DExpr.stringify,
      stringify_value, is_streamable_logger, is_streamable_ostream, loggerOut]
  · decide

/-- C3 witness: the theorem applied at the failing concrete check `1 > 2`,
which renders exactly `1 > 2`. -/
theorem C3_witness :
    KASSERT2 30 (.chain ⟨⟨none, .intv 1⟩, [(.opGt, ⟨none, .intv 2⟩)]⟩) "" testLoc "1 > 2" =
      some (⟨true, failureHeader "ASSERTION" testLoc "1 > 2" ++ "with expansion:\n" ++ "\t"
        ++ (toString (1 : Int) ++ " " ++ opStr .opGt ++ " " ++ toString (2 : Int))
        ++ "\n" ++ "" ++ "\n"⟩, []) :=
  C3_relational_rendering.1 1 2 .opGt testLoc "1 > 2" (by simp [relSixOps]) (by decide)

/-- C4 counterexample: the claim asserts that the level-10 (`kthrow`)
gating applies to the throwing check in BOTH exception modes. With
exception mode active, the generated code contains no `assertion_enabled`
gate at all: under active level 0 — where `assertion_enabled 0 kthrow` is
false and the claimed gating would make the statement a no-op — the check
still evaluates its side-effecting operand and throws. -/
theorem C4_cex_exception_mode_ungated :
    assertion_enabled 0 kthrow = false ∧
    THROWING_KASSERT_exception_mode (.chain ⟨⟨some "sideEffect", .boolv false⟩, []⟩) "w" =
      some (some "w", ["sideEffect"]) :=
  ⟨rfl, rfl⟩

/-- C4 (amended): `THROWING_KASSERT` with exception mode inactive degrades
to abort behavior gated by `assertion_enabled(kthrow)` with `kthrow = 10`
(no-op without evaluation when the gate is closed; report written — the
exception's description — then abort, when the gate is open and the
expression is false); with exception mode active the check is evaluated
unconditionally, with no level gating, and throws iff the expression is
false. -/
theorem C4_throwing_gating :
    (∀ (active : Int) (e : LogicSrc) (w : String) (out : Outcome) (tr : List String),
      assertion_enabled active kthrow = false →
      THROWING_KASSERT_no_exception_mode active e w = some (out, tr) →
      out.aborted = false ∧ out.output = "" ∧ tr = []) ∧
    (∀ (active : Int) (e : LogicSrc) (w : String) (b : Bool) (t : List String),
      assertion_enabled active kthrow = true →
      nativeEvalBool e = some (b, t) →
      THROWING_KASSERT_no_exception_mode active e w =
        some (if b then ⟨false, ""⟩ else ⟨true, w ++ "\n"⟩, t)) ∧
    (∀ (e : LogicSrc) (w : String) (b : Bool) (t : List String),
      nativeEvalBool e = some (b, t) →
      THROWING_KASSERT_exception_mode e w = some (if b then none else some w, t)) := by
  refine ⟨?_, ?_, ?_⟩
  · intro active e w out tr hdis h
    rw [THROWING_KASSERT_no_exception_mode, hdis] at h
    simp only [Bool.false_eq_true, if_false, reduceIte] at h
    cases hm : nativeEvalBool e with
    | none => rw [hm] at h; cases h
    | some v =>
        rw [hm] at h
        simp only [Option.map_some'] at h
        cases h
        exact ⟨rfl, rfl, rfl⟩
  · intro active e w b t hen hev
    rw [THROWING_KASSERT_no_exception_mode, hen, hev]
    rfl
  · intro e w b t hev
    rw [THROWING_KASSERT_exception_mode, hev]
    rfl

/-- C4 witness: with the gate open (active level 30) and a concrete false
expression, the non-exception-mode throwing check aborts after logging the
exception text. -/
theorem C4_witness :
    THROWING_KASSERT_no_exception_mode 30 (.chain ⟨⟨none, .boolv false⟩, []⟩) "w" =
      some (⟨true, "w" ++ "\n"⟩, []) := by
  have h := C4_throwing_gating.2.1 30 (.chain ⟨⟨none, .boolv false⟩, []⟩) "w" false []
    (by decide) (by rfl)
  simpa using h

/-- C6 counterexample: the claim requires the failure text of
throw-describing contexts to carry the line `<file>:<line>: FAILED <KIND>`
with `<KIND>` the exception type's identifier. The exception description
built by `build_what` instead hard-codes the literal `ASSERTION` (never
`KassertException` or any custom type name) and separates file and line
with `": "` (colon and space), so neither `f.cpp:3: FAILED` nor the
exception identifier occurs in the text. -/
theorem C6_cex_exception_text_format :
    build_what "x" ⟨"f.cpp", 3, "main"⟩ "" =
      "\nf.cpp: In function " ++ sq ++ "main" ++ sq ++ ":\nf.cpp: 3: FAILED ASSERTION\n\tx\n\n" ∧
    subAt ("f.cpp:3: FAILED").data (build_what "x" ⟨"f.cpp", 3, "main"⟩ "").data = false ∧
    subAt ("KassertException").data (build_what "x" ⟨"f.cpp", 3, "main"⟩ "").data = false :=
  ⟨by decide, by decide, by decide⟩

/-- C6 (amended): a failing non-throwing check reproduces the exact format
`<file>: In function <q><function><q>:` / `<file>:<line>: FAILED ASSERTION`
/ tab-indented raw expression (plus the expansion section and message); the
exception description contains the raw expression text, the file, the line
and the function name, but formats its line as `<file>: <line>:` (with a
space) and always says `FAILED ASSERTION`, never the exception type's
identifier. -/
theorem C6_failure_text :
    (∀ (active : Int) (loc : SourceLocation) (es msg : String),
      assertion_enabled active normal = true →
      KASSERT2 active (.chain ⟨⟨none, .boolv false⟩, []⟩) msg loc es =
        some (⟨true,
          failureHeader "ASSERTION" loc es
            ++ "with expansion:\n" ++ "\t" ++ "false" ++ "\n" ++ msg ++ "\n"⟩, [])) ∧
    (∀ (e msg : String) (loc : SourceLocation),
      containsStr (build_what e loc msg) e ∧
      containsStr (build_what e loc msg) loc.file ∧
      containsStr (build_what e loc msg) (toString loc.row) ∧
      containsStr (build_what e loc msg) loc.function ∧
      containsStr (build_what e loc msg)
        (loc.file ++ ": " ++ toString loc.row ++ ": FAILED ASSERTION")) := by
  constructor
  · intro active loc es msg hen
    simp only [KASSERT2, KASSERT_IMPL, hen]
    rfl
  · intro e msg loc
    refine ⟨?_, ?_, ?_, ?_, ?_⟩
    · exact containsStr_intro _ _
        ("\n" ++ loc.file ++ ": In function " ++ sq ++ loc.function ++ sq ++ ":\n"
          ++ loc.file ++ ": " ++ toString loc.row ++ ": FAILED ASSERTION" ++ "\n" ++ "\t")
        ("\n" ++ msg ++ "\n")
        (by rw [build_what]; simp only [String.append_assoc])
    · exact containsStr_intro _ _ "\n"
        (": In function " ++ sq ++ loc.function ++ sq ++ ":\n"
          ++ loc.file ++ ": " ++ toString loc.row ++ ": FAILED ASSERTION" ++ "\n"
          ++ "\t" ++ e ++ "\n" ++ msg ++ "\n")
        (by rw [build_what]; simp only [String.append_assoc])
    · exact containsStr_intro _ _
        ("\n" ++ loc.file ++ ": In function " ++ sq ++ loc.function ++ sq ++ ":\n"
          ++ loc.file ++ ": ")
        (": FAILED ASSERTION" ++ "\n" ++ "\t" ++ e ++ "\n" ++ msg ++ "\n")
        (by rw [build_what]; simp only [String.append_assoc])
    · exact containsStr_intro _ _
        ("\n" ++ loc.file ++ ": In function " ++ sq)
        (sq ++ ":\n" ++ loc.file ++ ": " ++ toString loc.row ++ ": FAILED ASSERTION" ++ "\n"
          ++ "\t" ++ e ++ "\n" ++ msg ++ "\n")
        (by rw [build_what]; simp only [String.append_assoc])
    · exact containsStr_intro _ _
        ("\n" ++ loc.file ++ ": In function " ++ sq ++ loc.function ++ sq ++ ":\n")
        ("\n" ++ "\t" ++ e ++ "\n" ++ msg ++ "\n")
        (by rw [build_what]; simp only [String.append_assoc])

/-- C6 witness: the amended theorem applied at a concrete enabled check and
a concrete exception description. -/
theorem C6_witness :
    KASSERT2 30 (.chain ⟨⟨none, .boolv false⟩, []⟩) "m" testLoc "cond" =
      some (⟨true,
        failureHeader "ASSERTION" testLoc "cond"
          ++ "with expansion:\n" ++ "\t" ++ "false" ++ "\n" ++ "m" ++ "\n"⟩, []) :=
  C6_failure_text.1 30 testLoc "cond" "m" (by decide)

/-- C5 witness: a level-30 check under active level 0 with a false
expression and a side-effecting operand is a no-op. -/
theorem C5_witness :
    (Outcome.mk false "").aborted = false ∧ (Outcome.mk false "").output = "" ∧
      ([] : List String) = [] :=
  C5_gating_noop.2 0 30 "ASSERTION" (.chain ⟨⟨some "sideEffect", .boolv false⟩, []⟩)
    "" testLoc "sideEffect(false)" ⟨false, ""⟩ [] (by decide) (by rfl)

end KAssert
